import Mathlib

/-!
Shallow embedding of `src/airflow/auth/managers/simple/simple_auth_manager.py`:
the role hierarchy (`SimpleAuthManagerRole`), the authorization decision
function (`_is_authorized`) and its per-resource wrappers, and the pure
reconciliation core of the credential bootstrap (`init`).

Conventions of the embedding:
* Python exceptions are modelled with `Except String Bool`: the `KeyError`
  raised by `SimpleAuthManagerRole[role_str]` on an unknown enum member name
  becomes `Except.error role_str`.
* The external session state read by `get_user` (the Flask session and the
  `simple_auth_manager_all_admins` configuration flag) is passed explicitly
  as the parameters `session_user` and `all_admins`.
* Randomness (`random.choices`) is modelled by an oracle: a function giving
  the index chosen at each draw, so theorems quantify over every possible
  random outcome.
-/

/-- The fixed role enumeration of the simple auth manager: each member has a
`name` (its enum member name) and an `order` (the second tuple component). -/
inductive SimpleAuthManagerRole where
  | VIEWER
  | USER
  | OP
  | ADMIN
deriving DecidableEq, Fintype, Repr

/-- The `order` field of each role: VIEWER = 0, USER = 1, OP = 2, ADMIN = 3. -/
def SimpleAuthManagerRole.order : SimpleAuthManagerRole → Nat
  | .VIEWER => 0
  | .USER => 1
  | .OP => 2
  | .ADMIN => 3

/-- Enum member lookup `SimpleAuthManagerRole[role_str]` by member name;
`none` models the `KeyError` raised for a name that is not a member. -/
def SimpleAuthManagerRole.fromName : String → Option SimpleAuthManagerRole
  | "VIEWER" => some .VIEWER
  | "USER" => some .USER
  | "OP" => some .OP
  | "ADMIN" => some .ADMIN
  | _ => none

/-- The rank comparison the decision engine performs between two roles
(`role.order >= allow_role.order` in the source): R1 covers R2 iff the
rank of R1 is at least the rank of R2. -/
def SimpleAuthManagerRole.covers (r1 r2 : SimpleAuthManagerRole) : Bool :=
  decide (r1.order ≥ r2.order)

/-- Caller identity. Modelled from the spec: the class
`airflow.auth.managers.simple.user.SimpleAuthManagerUser` is not under the
staged sources; per the spec its shape is a username string and a role-name
string, and `get_role` returns the stored role name. The role is carried as
`Option String` so that both a missing and an empty role name (the falsy
values guarded by `if not user_role` in the source) are representable. -/
structure SimpleAuthManagerUser where
  username : String
  role : Option String
deriving DecidableEq, Repr

/-- Modelled from the spec: accessor returning the caller's stored role name. -/
def SimpleAuthManagerUser.get_role (u : SimpleAuthManagerUser) : Option String :=
  u.role

/-- ASCII uppercasing of a role name: the embedding of Python `str.upper()`
as applied to role names (all defined role names are ASCII). -/
def str_upper (s : String) : String :=
  String.mk (s.data.map Char.toUpper)

/-- The session test `"user" in session or conf.getboolean(..., "simple_auth_manager_all_admins")`,
with the session contents and the flag passed explicitly. -/
def is_logged_in (session_user : Option SimpleAuthManagerUser) (all_admins : Bool) : Bool :=
  session_user.isSome || all_admins

/-- The current-user lookup `get_user`: `none` when not logged in, the
anonymous admin user when the all-admins flag is set, else the session user. -/
def get_user (session_user : Option SimpleAuthManagerUser) (all_admins : Bool) :
    Option SimpleAuthManagerUser :=
  if !is_logged_in session_user all_admins then none
  else if all_admins then some ⟨"anonymous", some "admin"⟩
  else session_user

/-- The authorization decision `_is_authorized`.  Mirrors the source line by
line: fall back to `get_user` when no user is supplied; deny when there is no
user; deny when the user's role is falsy (missing or empty); uppercase the
role name and look it up in the role enum, the failed lookup raising
`KeyError` (modelled as `Except.error`); allow unconditionally for ADMIN;
default `allow_get_role` to `allow_role`; then compare ranks, against
`allow_get_role` for method `"GET"` and against `allow_role` otherwise. -/
def _is_authorized (method : String) (allow_role : SimpleAuthManagerRole)
    (allow_get_role : Option SimpleAuthManagerRole)
    (user : Option SimpleAuthManagerUser)
    (session_user : Option SimpleAuthManagerUser) (all_admins : Bool) :
    Except String Bool :=
  let user := match user with
    | some u => some u
    | none => get_user session_user all_admins
  match user with
  | none => .ok false
  | some u =>
    match u.get_role with
    | none => .ok false
    | some user_role =>
      if user_role = "" then .ok false
      else
        let role_str := str_upper user_role
        match SimpleAuthManagerRole.fromName role_str with
        | none => .error role_str
        | some role =>
          if role = SimpleAuthManagerRole.ADMIN then .ok true
          else
            let allow_get_role2 := allow_get_role.getD allow_role
            if method = "GET" then .ok (decide (role.order ≥ allow_get_role2.order))
            else .ok (decide (role.order ≥ allow_role.order))

/-- Wrapper `is_authorized_configuration`: general minimum OP, no read minimum. -/
def is_authorized_configuration (method : String) (user : Option SimpleAuthManagerUser)
    (session_user : Option SimpleAuthManagerUser) (all_admins : Bool) : Except String Bool :=
  _is_authorized method SimpleAuthManagerRole.OP none user session_user all_admins

/-- Wrapper `is_authorized_connection`: general minimum OP, no read minimum. -/
def is_authorized_connection (method : String) (user : Option SimpleAuthManagerUser)
    (session_user : Option SimpleAuthManagerUser) (all_admins : Bool) : Except String Bool :=
  _is_authorized method SimpleAuthManagerRole.OP none user session_user all_admins

/-- Wrapper `is_authorized_dag`: general minimum USER, read minimum VIEWER. -/
def is_authorized_dag (method : String) (user : Option SimpleAuthManagerUser)
    (session_user : Option SimpleAuthManagerUser) (all_admins : Bool) : Except String Bool :=
  _is_authorized method SimpleAuthManagerRole.USER (some SimpleAuthManagerRole.VIEWER)
    user session_user all_admins

/-- Wrapper `is_authorized_asset`: general minimum OP, read minimum VIEWER. -/
def is_authorized_asset (method : String) (user : Option SimpleAuthManagerUser)
    (session_user : Option SimpleAuthManagerUser) (all_admins : Bool) : Except String Bool :=
  _is_authorized method SimpleAuthManagerRole.OP (some SimpleAuthManagerRole.VIEWER)
    user session_user all_admins

/-- Wrapper `is_authorized_pool`: general minimum OP, read minimum VIEWER. -/
def is_authorized_pool (method : String) (user : Option SimpleAuthManagerUser)
    (session_user : Option SimpleAuthManagerUser) (all_admins : Bool) : Except String Bool :=
  _is_authorized method SimpleAuthManagerRole.OP (some SimpleAuthManagerRole.VIEWER)
    user session_user all_admins

/-- Wrapper `is_authorized_variable`: general minimum OP, no read minimum. -/
def is_authorized_variable (method : String) (user : Option SimpleAuthManagerUser)
    (session_user : Option SimpleAuthManagerUser) (all_admins : Bool) : Except String Bool :=
  _is_authorized method SimpleAuthManagerRole.OP none user session_user all_admins

/-- Wrapper `is_authorized_view`: the source takes no method at all and calls
the decision with the method fixed to the literal `"GET"` and minimum VIEWER.
The `access_view` argument (an external enum) is modelled as a string and is
ignored, as in the source. -/
def is_authorized_view (access_view : String) (user : Option SimpleAuthManagerUser)
    (session_user : Option SimpleAuthManagerUser) (all_admins : Bool) : Except String Bool :=
  _is_authorized "GET" SimpleAuthManagerRole.VIEWER none user session_user all_admins

/-- Wrapper `is_authorized_custom_view`: the source receives `method` and
`resource_name` but calls the decision with the method fixed to the literal
`"GET"` and minimum VIEWER, ignoring both arguments. -/
def is_authorized_custom_view (method : String) (resource_name : String)
    (user : Option SimpleAuthManagerUser)
    (session_user : Option SimpleAuthManagerUser) (all_admins : Bool) : Except String Bool :=
  _is_authorized "GET" SimpleAuthManagerRole.VIEWER none user session_user all_admins

/-- The character pool of `_generate_password`, copied verbatim from the
source literal passed to `random.choices`. -/
def password_alphabet : List Char :=
  "abcdefghkmnpqrstuvwxyzABCDEFGHKMNPQRSTUVWXYZ23456789".data

/-- The password generator `_generate_password`: sixteen draws from
`password_alphabet`.  `random.choices` (uniform, with replacement) is
modelled by the oracle `choice` giving the raw index of each draw, reduced
modulo the alphabet size; every sequence of draws corresponds to some
oracle, and every oracle to a possible sequence of draws. -/
def _generate_password (choice : Nat → Nat) : List Char :=
  (List.range 16).map fun i =>
    password_alphabet.getD (choice i % password_alphabet.length) 'a'

/-- The filling loop inside `init`: for each configured username in order,
if the username has no entry in the store yet, append a freshly generated
password (`gen j` is the password produced by the j-th generator call). -/
def init_fill (passwords : List (String × String)) (usernames : List String)
    (gen : Nat → String) (k : Nat) : List (String × String) :=
  match usernames with
  | [] => passwords
  | u :: rest =>
    if (passwords.lookup u).isSome then init_fill passwords rest gen k
    else init_fill (passwords ++ [(u, gen k)]) rest gen (k + 1)

/-- The pure reconciliation core of `init`: start from the persisted store
restricted to currently configured usernames (the dict comprehension with
`if username in usernames`), then add a generated password for every
configured username still missing.  Stores are insertion-ordered
username-to-password association lists, as Python dicts are; file I/O and
the console echo of the passwords are outside the model. -/
def init_passwords (user_passwords_from_file : List (String × String))
    (usernames : List String) (gen : Nat → String) : List (String × String) :=
  init_fill (user_passwords_from_file.filter fun p => usernames.contains p.1)
    usernames gen 0

/-! Helper lemmas about association-list lookup, used by the bootstrap
reconciliation proof. -/

lemma lookup_cons_pos {t : List (String × String)} {k v u : String}
    (h : (u == k) = true) : List.lookup u ((k, v) :: t) = some v := by
  simp [List.lookup, h]

lemma lookup_cons_neg {t : List (String × String)} {k v u : String}
    (h : (u == k) = false) : List.lookup u ((k, v) :: t) = List.lookup u t := by
  simp [List.lookup, h]

lemma filter_cons_true {p : String × String → Bool} {a : String × String}
    {t : List (String × String)} (h : p a = true) :
    List.filter p (a :: t) = a :: List.filter p t := by
  simp [List.filter, h]

lemma filter_cons_false {p : String × String → Bool} {a : String × String}
    {t : List (String × String)} (h : p a = false) :
    List.filter p (a :: t) = List.filter p t := by
  simp [List.filter, h]

lemma lookup_append_left {l1 l2 : List (String × String)} {u p : String}
    (h : l1.lookup u = some p) : (l1 ++ l2).lookup u = some p := by
  induction l1 with
  | nil => exact Option.noConfusion h
  | cons a t ih =>
    obtain ⟨k, v⟩ := a
    rw [List.cons_append]
    cases hk : (u == k) with
    | true =>
      rw [lookup_cons_pos hk] at h
      rw [lookup_cons_pos hk]
      exact h
    | false =>
      rw [lookup_cons_neg hk] at h
      rw [lookup_cons_neg hk]
      exact ih h

lemma lookup_append_right {l1 l2 : List (String × String)} {u : String}
    (h : l1.lookup u = none) : (l1 ++ l2).lookup u = l2.lookup u := by
  induction l1 with
  | nil => rfl
  | cons a t ih =>
    obtain ⟨k, v⟩ := a
    rw [List.cons_append]
    cases hk : (u == k) with
    | true =>
      rw [lookup_cons_pos hk] at h
      exact Option.noConfusion h
    | false =>
      rw [lookup_cons_neg hk] at h
      rw [lookup_cons_neg hk]
      exact ih h

lemma lookup_filter_of_mem (l : List (String × String)) (usernames : List String)
    (u : String) (hu : usernames.contains u = true) :
    (l.filter fun p => usernames.contains p.1).lookup u = l.lookup u := by
  induction l with
  | nil => rfl
  | cons a t ih =>
    obtain ⟨k, v⟩ := a
    cases hk : (u == k) with
    | true =>
      have hkc : usernames.contains k = true := eq_of_beq hk ▸ hu
      rw [filter_cons_true (p := fun p => usernames.contains p.1) hkc,
        lookup_cons_pos hk, lookup_cons_pos hk]
    | false =>
      cases hkc : usernames.contains k with
      | true =>
        rw [filter_cons_true (p := fun p => usernames.contains p.1) hkc,
          lookup_cons_neg hk, lookup_cons_neg hk]
        exact ih
      | false =>
        rw [filter_cons_false (p := fun p => usernames.contains p.1) hkc,
          lookup_cons_neg hk]
        exact ih

lemma lookup_filter_of_not_mem (l : List (String × String)) (usernames : List String)
    (u : String) (hu : usernames.contains u = false) :
    (l.filter fun p => usernames.contains p.1).lookup u = none := by
  induction l with
  | nil => rfl
  | cons a t ih =>
    obtain ⟨k, v⟩ := a
    cases hkc : usernames.contains k with
    | true =>
      have hk : (u == k) = false := by
        cases hb : (u == k) with
        | true =>
          rw [eq_of_beq hb, hkc] at hu
          exact Bool.noConfusion hu
        | false => rfl
      rw [filter_cons_true (p := fun p => usernames.contains p.1) hkc,
        lookup_cons_neg hk]
      exact ih
    | false =>
      rw [filter_cons_false (p := fun p => usernames.contains p.1) hkc]
      exact ih

lemma init_fill_cons_found {pw : List (String × String)} {v w : String}
    (rest : List String) (gen : Nat → String) (k : Nat) (h : pw.lookup v = some w) :
    init_fill pw (v :: rest) gen k = init_fill pw rest gen k := by
  simp [init_fill, h]

lemma init_fill_cons_new {pw : List (String × String)} {v : String}
    (rest : List String) (gen : Nat → String) (k : Nat) (h : pw.lookup v = none) :
    init_fill pw (v :: rest) gen k = init_fill (pw ++ [(v, gen k)]) rest gen (k + 1) := by
  simp [init_fill, h]

lemma init_fill_lookup_some {us : List String} {gen : Nat → String} :
    ∀ {pw : List (String × String)} {k : Nat} {u p : String},
      pw.lookup u = some p → (init_fill pw us gen k).lookup u = some p := by
  induction us with
  | nil =>
    intro pw k u p h
    exact h
  | cons v rest ih =>
    intro pw k u p h
    cases hv : pw.lookup v with
    | some w =>
      rw [init_fill_cons_found rest gen k hv]
      exact ih h
    | none =>
      rw [init_fill_cons_new rest gen k hv]
      exact ih (lookup_append_left h)

lemma init_fill_lookup_not_mem {us : List String} {gen : Nat → String} :
    ∀ {pw : List (String × String)} {k : Nat} {u : String},
      pw.lookup u = none → us.contains u = false →
      (init_fill pw us gen k).lookup u = none := by
  induction us with
  | nil =>
    intro pw k u h _
    exact h
  | cons v rest ih =>
    intro pw k u h hu
    rw [List.contains_cons] at hu
    have h1 : (u == v) = false := by
      cases hb : (u == v) with
      | true =>
        rw [hb, Bool.true_or] at hu
        exact Bool.noConfusion hu
      | false => rfl
    have h2 : rest.contains u = false := by
      rw [h1, Bool.false_or] at hu
      exact hu
    cases hv : pw.lookup v with
    | some w =>
      rw [init_fill_cons_found rest gen k hv]
      exact ih h h2
    | none =>
      rw [init_fill_cons_new rest gen k hv]
      refine ih ?_ h2
      rw [lookup_append_right h]
      exact lookup_cons_neg h1

lemma init_fill_lookup_new {us : List String} {gen : Nat → String} :
    ∀ {pw : List (String × String)} {k : Nat} {u : String},
      us.contains u = true → pw.lookup u = none →
      ∃ j, (init_fill pw us gen k).lookup u = some (gen j) := by
  induction us with
  | nil =>
    intro pw k u hu _
    exact Bool.noConfusion hu
  | cons v rest ih =>
    intro pw k u hu hpw
    by_cases huv : u = v
    · subst huv
      refine ⟨k, ?_⟩
      rw [init_fill_cons_new rest gen k hpw]
      refine init_fill_lookup_some ?_
      rw [lookup_append_right hpw]
      exact lookup_cons_pos (by simp)
    · have hbeq : (u == v) = false := by
        cases hb : (u == v) with
        | true => exact absurd (eq_of_beq hb) huv
        | false => rfl
      have hrest : rest.contains u = true := by
        rw [List.contains_cons, hbeq, Bool.false_or] at hu
        exact hu
      cases hv : pw.lookup v with
      | some w =>
        rw [init_fill_cons_found rest gen k hv]
        exact ih hrest hpw
      | none =>
        rw [init_fill_cons_new rest gen k hv]
        refine ih hrest ?_
        rw [lookup_append_right hpw]
        exact lookup_cons_neg hbeq

/-- The alphabet that claim C6 asserts, built from the spec's words for
comparison with the source's `password_alphabet`: all lowercase and uppercase
letters minus i, l, o, I, L, O, plus the digits 2 through 9. -/
def spec_claimed_alphabet : List Char :=
  ("abcdefghijklmnopqrstuvwxyzABCDEFGHIJKLMNOPQRSTUVWXYZ".data.filter
    fun c => !(['i', 'l', 'o', 'I', 'L', 'O'].contains c)) ++ "23456789".data

/-- C1: the claim states that an unknown role name yields the decision false
with no exception; in the source `SimpleAuthManagerRole[role_str]` raises
`KeyError` for an unknown member name, so for the caller with role name
`"guest"` the decision is the propagated error, not the verdict false. -/
theorem c1_counterexample :
    _is_authorized "GET" SimpleAuthManagerRole.OP none
        (some ⟨"test", some "guest"⟩) none false = Except.error "GUEST"
    ∧ _is_authorized "GET" SimpleAuthManagerRole.OP none
        (some ⟨"test", some "guest"⟩) none false ≠ Except.ok false :=
  ⟨rfl, fun h => Except.noConfusion h⟩

/-- C1 (amended): for every caller whose nonempty role name does not match
any defined role after case normalization, `_is_authorized` propagates the
enum lookup failure (`KeyError` on the uppercased role name) to its invoker
instead of returning a deny verdict. -/
theorem c1_unknown_role_errors (method un user_role : String)
    (allow_role : SimpleAuthManagerRole) (allow_get_role : Option SimpleAuthManagerRole)
    (session_user : Option SimpleAuthManagerUser) (all_admins : Bool)
    (hne : user_role ≠ "")
    (hunknown : SimpleAuthManagerRole.fromName (str_upper user_role) = none) :
    _is_authorized method allow_role allow_get_role
        (some ⟨un, some user_role⟩) session_user all_admins
      = Except.error (str_upper user_role) := by
  simp [_is_authorized, SimpleAuthManagerUser.get_role, hne, hunknown]

theorem c1_witness :
    _is_authorized "POST" SimpleAuthManagerRole.VIEWER none
        (some ⟨"alice", some "guests"⟩) none false = Except.error "GUESTS" :=
  c1_unknown_role_errors "POST" "alice" "guests" SimpleAuthManagerRole.VIEWER
    none none false (by decide) (by decide)

/-- C2: whenever the caller's role name resolves to ADMIN, `_is_authorized`
returns the allow verdict for every method and every policy (`allow_role`,
`allow_get_role`), including policies whose general minimum is ADMIN itself,
short-circuiting before any policy comparison. -/
theorem c2_admin_always_allowed (method un user_role : String)
    (allow_role : SimpleAuthManagerRole) (allow_get_role : Option SimpleAuthManagerRole)
    (session_user : Option SimpleAuthManagerUser) (all_admins : Bool)
    (hres : SimpleAuthManagerRole.fromName (str_upper user_role)
      = some SimpleAuthManagerRole.ADMIN) :
    _is_authorized method allow_role allow_get_role
        (some ⟨un, some user_role⟩) session_user all_admins = Except.ok true := by
  have hne : user_role ≠ "" := by
    intro h
    rw [h] at hres
    exact Option.noConfusion hres
  simp [_is_authorized, SimpleAuthManagerUser.get_role, hne, hres]

theorem c2_witness :
    _is_authorized "DELETE" SimpleAuthManagerRole.ADMIN none
        (some ⟨"root", some "admin"⟩) none false = Except.ok true :=
  c2_admin_always_allowed "DELETE" "root" "admin" SimpleAuthManagerRole.ADMIN
    none none false (by decide)

/-- C3: for every caller whose role name resolves to a non-ADMIN role, the
decision is allow iff the caller role's rank is at least the rank of the
effective minimum, which is the read minimum `allow_get_role` when the
method is `"GET"` and a distinct read minimum is defined, and the general
minimum `allow_role` otherwise. -/
theorem c3_nonadmin_rank_check (method un user_role : String)
    (role allow_role : SimpleAuthManagerRole)
    (allow_get_role : Option SimpleAuthManagerRole)
    (session_user : Option SimpleAuthManagerUser) (all_admins : Bool)
    (hres : SimpleAuthManagerRole.fromName (str_upper user_role) = some role)
    (hnadmin : role ≠ SimpleAuthManagerRole.ADMIN) :
    _is_authorized method allow_role allow_get_role
        (some ⟨un, some user_role⟩) session_user all_admins
      = Except.ok (decide (role.order ≥
          (if method = "GET" then allow_get_role.getD allow_role
           else allow_role).order)) := by
  have hne : user_role ≠ "" := by
    intro h
    rw [h] at hres
    exact Option.noConfusion hres
  by_cases hm : method = "GET" <;>
    simp [_is_authorized, SimpleAuthManagerUser.get_role, hne, hres, hnadmin, hm]

theorem c3_witness :
    _is_authorized "GET" SimpleAuthManagerRole.OP (some SimpleAuthManagerRole.VIEWER)
        (some ⟨"bob", some "user"⟩) none false = Except.ok true := by
  have h := c3_nonadmin_rank_check "GET" "bob" "user" SimpleAuthManagerRole.USER
    SimpleAuthManagerRole.OP (some SimpleAuthManagerRole.VIEWER) none false
    (by decide) (by decide)
  simpa using h

/-- C4: with no caller supplied and no one authenticated (an empty session
and the all-admins flag off, so `get_user` returns none), the decision is
the deny verdict for every method and every policy, and never an error. -/
theorem c4_no_caller_denied (method : String) (allow_role : SimpleAuthManagerRole)
    (allow_get_role : Option SimpleAuthManagerRole) :
    _is_authorized method allow_role allow_get_role none none false
      = Except.ok false := rfl

/-- C5: the reconciled credential store is the persisted store filtered to
currently configured usernames with surviving entries preserved verbatim;
configured usernames with no persisted entry receive a generated password;
usernames no longer configured have no entry; and on the concrete example
the persisted entry of alice survives, bob is dropped and carol gets the
first generated password. -/
theorem c5_bootstrap_reconciliation (user_passwords_from_file : List (String × String))
    (usernames : List String) (gen : Nat → String) :
    (∀ u p, usernames.contains u = true →
        user_passwords_from_file.lookup u = some p →
        (init_passwords user_passwords_from_file usernames gen).lookup u = some p)
  ∧ (∀ u, usernames.contains u = false →
        (init_passwords user_passwords_from_file usernames gen).lookup u = none)
  ∧ (∀ u, usernames.contains u = true →
        user_passwords_from_file.lookup u = none →
        ∃ j, (init_passwords user_passwords_from_file usernames gen).lookup u
          = some (gen j))
  ∧ init_passwords [("alice", "X"), ("bob", "Y")] ["alice", "carol"] gen
      = [("alice", "X"), ("carol", gen 0)] := by
  refine ⟨?_, ?_, ?_, rfl⟩
  · intro u p hu hp
    refine init_fill_lookup_some ?_
    rw [lookup_filter_of_mem _ _ _ hu]
    exact hp
  · intro u hu
    exact init_fill_lookup_not_mem (lookup_filter_of_not_mem _ _ _ hu) hu
  · intro u hu hp
    refine init_fill_lookup_new hu ?_
    rw [lookup_filter_of_mem _ _ _ hu]
    exact hp

/-- C6: the claim describes the password alphabet as all letters minus
i, l, o, I, L, O plus the digits 2 through 9, but the source literal also
omits j and J: the letter j is in the claimed alphabet yet can never occur
in a generated password. -/
theorem c6_counterexample :
    'j' ∈ spec_claimed_alphabet ∧ 'j' ∉ password_alphabet
      ∧ password_alphabet ≠ spec_claimed_alphabet := by
  decide

/-- C6 (amended): every generated secret is exactly 16 characters, each
drawn from the source alphabet, which is all lowercase and uppercase
letters minus i, j, l, o, I, J, L, O plus the digits 2 through 9; in
particular no generated secret contains any of i, l, o, I, L, O. -/
theorem c6_generated_password_shape (choice : Nat → Nat) :
    (_generate_password choice).length = 16
  ∧ (∀ c ∈ _generate_password choice, c ∈ password_alphabet)
  ∧ password_alphabet
      = ("abcdefghijklmnopqrstuvwxyzABCDEFGHIJKLMNOPQRSTUVWXYZ".data.filter
          fun c => !(['i', 'j', 'l', 'o', 'I', 'J', 'L', 'O'].contains c))
        ++ "23456789".data
  ∧ (∀ c ∈ _generate_password choice, c ∉ (['i', 'l', 'o', 'I', 'L', 'O'] : List Char)) := by
  have hmem : ∀ c ∈ _generate_password choice, c ∈ password_alphabet := by
    intro c hc
    simp only [_generate_password, List.mem_map, List.mem_range] at hc
    obtain ⟨i, hi, rfl⟩ := hc
    have hlt : choice i % password_alphabet.length < password_alphabet.length :=
      Nat.mod_lt _ (by decide)
    rw [List.getD_eq_getElem?_getD, List.getElem?_eq_getElem hlt, Option.getD_some]
    exact List.getElem_mem hlt
  have hexc : ∀ c ∈ password_alphabet, c ∉ (['i', 'l', 'o', 'I', 'L', 'O'] : List Char) := by
    decide
  exact ⟨by simp [_generate_password], hmem, by decide,
    fun c hc => hexc c (hmem c hc)⟩

/-- C7: the per-resource defaults are exactly the claimed policy table:
configuration, connection and variable use general minimum OP with no
distinct read minimum; pool and asset use OP with read minimum VIEWER; dag
uses USER with read minimum VIEWER; and the two view operations decide with
minimum VIEWER for both general and read access (their method is fixed to
`"GET"`, so passing VIEWER as both minima gives the same decision). -/
theorem c7_default_policy_table (method access_view resource_name : String)
    (user session_user : Option SimpleAuthManagerUser) (all_admins : Bool) :
    is_authorized_configuration method user session_user all_admins
      = _is_authorized method SimpleAuthManagerRole.OP none user session_user all_admins
  ∧ is_authorized_connection method user session_user all_admins
      = _is_authorized method SimpleAuthManagerRole.OP none user session_user all_admins
  ∧ is_authorized_variable method user session_user all_admins
      = _is_authorized method SimpleAuthManagerRole.OP none user session_user all_admins
  ∧ is_authorized_pool method user session_user all_admins
      = _is_authorized method SimpleAuthManagerRole.OP (some SimpleAuthManagerRole.VIEWER)
          user session_user all_admins
  ∧ is_authorized_asset method user session_user all_admins
      = _is_authorized method SimpleAuthManagerRole.OP (some SimpleAuthManagerRole.VIEWER)
          user session_user all_admins
  ∧ is_authorized_dag method user session_user all_admins
      = _is_authorized method SimpleAuthManagerRole.USER (some SimpleAuthManagerRole.VIEWER)
          user session_user all_admins
  ∧ is_authorized_view access_view user session_user all_admins
      = _is_authorized "GET" SimpleAuthManagerRole.VIEWER (some SimpleAuthManagerRole.VIEWER)
          user session_user all_admins
  ∧ is_authorized_custom_view method resource_name user session_user all_admins
      = _is_authorized "GET" SimpleAuthManagerRole.VIEWER (some SimpleAuthManagerRole.VIEWER)
          user session_user all_admins :=
  ⟨rfl, rfl, rfl, rfl, rfl, rfl, rfl, rfl⟩

/-- C8: the role hierarchy is the closed four-member set with injective,
strictly increasing ranks VIEWER(0) < USER(1) < OP(2) < ADMIN(3), and the
covers relation (rank comparison) is total and transitive over it. -/
theorem c8_role_hierarchy :
    (SimpleAuthManagerRole.VIEWER.order = 0 ∧ SimpleAuthManagerRole.USER.order = 1
      ∧ SimpleAuthManagerRole.OP.order = 2 ∧ SimpleAuthManagerRole.ADMIN.order = 3)
  ∧ (∀ r1 r2 : SimpleAuthManagerRole, r1.order = r2.order → r1 = r2)
  ∧ (∀ r : SimpleAuthManagerRole,
      r = SimpleAuthManagerRole.VIEWER ∨ r = SimpleAuthManagerRole.USER
      ∨ r = SimpleAuthManagerRole.OP ∨ r = SimpleAuthManagerRole.ADMIN)
  ∧ (SimpleAuthManagerRole.VIEWER.order < SimpleAuthManagerRole.USER.order
      ∧ SimpleAuthManagerRole.USER.order < SimpleAuthManagerRole.OP.order
      ∧ SimpleAuthManagerRole.OP.order < SimpleAuthManagerRole.ADMIN.order)
  ∧ (∀ r1 r2 : SimpleAuthManagerRole,
      SimpleAuthManagerRole.covers r1 r2 = true ↔ r1.order ≥ r2.order)
  ∧ (∀ r1 r2 : SimpleAuthManagerRole,
      SimpleAuthManagerRole.covers r1 r2 = true ∨ SimpleAuthManagerRole.covers r2 r1 = true)
  ∧ (∀ r1 r2 r3 : SimpleAuthManagerRole,
      SimpleAuthManagerRole.covers r1 r2 = true →
      SimpleAuthManagerRole.covers r2 r3 = true →
      SimpleAuthManagerRole.covers r1 r3 = true) := by
  decide

/-- C9: a present caller whose role name is falsy (missing, or the empty
string) yields the deny verdict for every method, every policy and every
session state, with no role lookup error. -/
theorem c9_falsy_role_denied (method un : String) (allow_role : SimpleAuthManagerRole)
    (allow_get_role : Option SimpleAuthManagerRole)
    (session_user : Option SimpleAuthManagerUser) (all_admins : Bool) :
    _is_authorized method allow_role allow_get_role (some ⟨un, none⟩)
        session_user all_admins = Except.ok false
    ∧ _is_authorized method allow_role allow_get_role (some ⟨un, some ""⟩)
        session_user all_admins = Except.ok false :=
  ⟨rfl, rfl⟩

/-- C10: `is_authorized_custom_view` gives the same decision for any two
methods, because both view operations call the decision with the method
fixed to `"GET"` and minimum VIEWER, as does `is_authorized_view`. -/
theorem c10_views_ignore_method (m1 m2 resource_name access_view : String)
    (user session_user : Option SimpleAuthManagerUser) (all_admins : Bool) :
    is_authorized_custom_view m1 resource_name user session_user all_admins
      = is_authorized_custom_view m2 resource_name user session_user all_admins
  ∧ is_authorized_custom_view m1 resource_name user session_user all_admins
      = _is_authorized "GET" SimpleAuthManagerRole.VIEWER none user session_user all_admins
  ∧ is_authorized_view access_view user session_user all_admins
      = _is_authorized "GET" SimpleAuthManagerRole.VIEWER none user session_user all_admins :=
  ⟨rfl, rfl, rfl⟩
